import Mathlib

/-!
Verification of `src/consumers/project_consumer_valjohnson.py`, a file-tailing
JSON consumer that keeps per-author message counts, a running total, a
per-author percentage history and a list of sample indices, and (per the
code's comments) redraws a live chart after every processed message.

Shallow embedding notes:
* JSON values are the mutually inductive `Json` / `JArr` / `JObj` (arrays and
  object field lists get their own list types so that all recursions are
  structural and kernel-reducible).
* `json_loads` models `json.loads` on the JSON fragment exercised by this
  program: null/true/false, integer numbers, escape-free strings, arrays and
  objects, with inter-token whitespace, requiring the whole input to be
  consumed.  (Floats, escape sequences and the leading-zero restriction of
  the full JSON grammar are outside the modelled fragment.)
* Python floats are modelled by `Rat`; `defaultdict(int)` and
  `defaultdict(list)` are modelled by association lists with lookup defaults
  `0` and `[]`.
* The program's state mutations are pure state-passing functions; `logger`
  calls are modelled by the list of emitted log levels.
-/

namespace Buzzline

mutual
/-- A JSON value, as produced by `json.loads` (line 118 of the source). -/
inductive Json where
  | null
  | bool (b : Bool)
  | num (n : Int)
  | str (s : String)
  | arr (elems : JArr)
  | obj (fields : JObj)
  deriving Repr

/-- The element list of a JSON array. -/
inductive JArr where
  | nil
  | cons (hd : Json) (tl : JArr)
  deriving Repr

/-- The field list of a JSON object (a Python dict in insertion order). -/
inductive JObj where
  | nil
  | cons (key : String) (val : Json) (tl : JObj)
  deriving Repr
end

mutual
/-- Structural equality of JSON values (Python `==` on parsed values). -/
def Json.beq : Json → Json → Bool
  | .null, .null => true
  | .bool a, .bool b => a == b
  | .num a, .num b => a == b
  | .str a, .str b => a == b
  | .arr xs, .arr ys => JArr.beq xs ys
  | .obj xs, .obj ys => JObj.beq xs ys
  | _, _ => false

def JArr.beq : JArr → JArr → Bool
  | .nil, .nil => true
  | .cons x xs, .cons y ys => Json.beq x y && JArr.beq xs ys
  | _, _ => false

def JObj.beq : JObj → JObj → Bool
  | .nil, .nil => true
  | .cons k v xs, .cons k' v' ys => k == k' && Json.beq v v' && JObj.beq xs ys
  | _, _ => false
end

mutual
theorem Json.beq_sound : (a b : Json) → Json.beq a b = true → a = b
  | .null, b, h => by cases b <;> simp_all [Json.beq]
  | .bool x, b, h => by cases b <;> simp_all [Json.beq]
  | .num x, b, h => by cases b <;> simp_all [Json.beq]
  | .str x, b, h => by cases b <;> simp_all [Json.beq]
  | .arr xs, b, h => by
      cases b <;> simp_all [Json.beq]
      exact JArr.arr_beq_sound xs _ h
  | .obj xs, b, h => by
      cases b <;> simp_all [Json.beq]
      exact JObj.obj_beq_sound xs _ h

theorem JArr.arr_beq_sound : (xs ys : JArr) → JArr.beq xs ys = true → xs = ys
  | .nil, ys, h => by cases ys <;> simp_all [JArr.beq]
  | .cons x xs, ys, h => by
      cases ys with
      | nil => simp [JArr.beq] at h
      | cons y ys =>
        simp only [JArr.beq, Bool.and_eq_true] at h
        rw [Json.beq_sound x y h.1, JArr.arr_beq_sound xs ys h.2]

theorem JObj.obj_beq_sound : (xs ys : JObj) → JObj.beq xs ys = true → xs = ys
  | .nil, ys, h => by cases ys <;> simp_all [JObj.beq]
  | .cons k v xs, ys, h => by
      cases ys with
      | nil => simp [JObj.beq] at h
      | cons k' v' ys =>
        simp only [JObj.beq, Bool.and_eq_true, beq_iff_eq] at h
        rw [h.1.1, Json.beq_sound v v' h.1.2, JObj.obj_beq_sound xs ys h.2]
end

mutual
theorem Json.beq_refl : (a : Json) → Json.beq a a = true
  | .null => by simp [Json.beq]
  | .bool x => by simp [Json.beq]
  | .num x => by simp [Json.beq]
  | .str x => by simp [Json.beq]
  | .arr xs => by simp [Json.beq, JArr.arr_beq_refl xs]
  | .obj xs => by simp [Json.beq, JObj.obj_beq_refl xs]

theorem JArr.arr_beq_refl : (xs : JArr) → JArr.beq xs xs = true
  | .nil => by simp [JArr.beq]
  | .cons x xs => by simp [JArr.beq, Json.beq_refl x, JArr.arr_beq_refl xs]

theorem JObj.obj_beq_refl : (xs : JObj) → JObj.beq xs xs = true
  | .nil => by simp [JObj.beq]
  | .cons k v xs => by simp [JObj.beq, Json.beq_refl v, JObj.obj_beq_refl xs]
end

instance : DecidableEq Json := fun a b =>
  if h : Json.beq a b = true then isTrue (Json.beq_sound a b h)
  else isFalse (fun he => h (he ▸ Json.beq_refl a))

/-- `isinstance(message_dict, dict)` — line 124 of the source. -/
def Json.isObj : Json → Bool
  | .obj _ => true
  | _ => false

/-- `message_dict.get(key, default)`: Python dicts built by `json.loads`
keep the last occurrence of a duplicated key, so lookup prefers the
rightmost binding. -/
def JObj.get : JObj → String → Option Json
  | .nil, _ => none
  | .cons k' v t, k =>
      match JObj.get t k with
      | some r => some r
      | none => if k' = k then some v else none

/-! ### The JSON parser (model of `json.loads`, line 118) -/

/-- JSON inter-token whitespace. -/
def isJsonWs (c : Char) : Bool := c = ' ' || c = '\t' || c = '\n' || c = '\r'

/-- Drop leading JSON whitespace. -/
def skipWs : List Char → List Char
  | [] => []
  | c :: t => if isJsonWs c then skipWs t else c :: t

/-- Read the body of a string literal up to the closing quote (the inputs of
this program use no escape sequences, so a backslash is rejected). -/
def takeStr : List Char → Option (List Char × List Char)
  | [] => none
  | c :: t =>
      if c = '"' then some ([], t)
      else if c = '\\' then none
      else (takeStr t).map (fun p => (c :: p.1, p.2))

/-- Split a run of leading decimal digits. -/
def takeDigits : List Char → List Char × List Char
  | [] => ([], [])
  | c :: t =>
      if c.isDigit then
        let (d, r) := takeDigits t
        (c :: d, r)
      else ([], c :: t)

/-- Decimal digits to a number. -/
def digitsToNat (ds : List Char) : Nat :=
  ds.foldl (fun n c => 10 * n + (c.toNat - 48)) 0

mutual
/-- Parse one JSON value.  The fuel argument only bounds the recursion depth;
`json_loads` always supplies enough of it. -/
def parseValue : Nat → List Char → Option (Json × List Char)
  | 0, _ => none
  | fuel + 1, cs =>
    match cs with
    | [] => none
    | c :: t =>
      if c = 'n' then
        match t with
        | 'u' :: 'l' :: 'l' :: r => some (.null, r)
        | _ => none
      else if c = 't' then
        match t with
        | 'r' :: 'u' :: 'e' :: r => some (.bool true, r)
        | _ => none
      else if c = 'f' then
        match t with
        | 'a' :: 'l' :: 's' :: 'e' :: r => some (.bool false, r)
        | _ => none
      else if c = '"' then
        (takeStr t).map (fun p => (.str ⟨p.1⟩, p.2))
      else if c = '-' then
        match takeDigits t with
        | ([], _) => none
        | (ds, r) => some (.num (-(digitsToNat ds : Int)), r)
      else if c.isDigit then
        match takeDigits (c :: t) with
        | (ds, r) => some (.num (digitsToNat ds), r)
      else if c = '[' then
        match skipWs t with
        | ']' :: r => some (.arr .nil, r)
        | cs' => (parseElems fuel cs').map (fun p => (.arr p.1, p.2))
      else if c = '\x7b' then
        match skipWs t with
        | '\x7d' :: r => some (.obj .nil, r)
        | cs' => (parseFields fuel cs').map (fun p => (.obj p.1, p.2))
      else none

/-- Parse the comma-separated elements of a non-empty array. -/
def parseElems : Nat → List Char → Option (JArr × List Char)
  | 0, _ => none
  | fuel + 1, cs =>
    match parseValue fuel cs with
    | none => none
    | some (v, r) =>
      match skipWs r with
      | ',' :: r' => (parseElems fuel (skipWs r')).map (fun p => (.cons v p.1, p.2))
      | ']' :: r' => some (.cons v .nil, r')
      | _ => none

/-- Parse the comma-separated fields of a non-empty object. -/
def parseFields : Nat → List Char → Option (JObj × List Char)
  | 0, _ => none
  | fuel + 1, cs =>
    match cs with
    | '"' :: t =>
      match takeStr t with
      | none => none
      | some (k, r) =>
        match skipWs r with
        | ':' :: r' =>
          match parseValue fuel (skipWs r') with
          | none => none
          | some (v, r2) =>
            match skipWs r2 with
            | ',' :: r3 => (parseFields fuel (skipWs r3)).map (fun p => (.cons ⟨k⟩ v p.1, p.2))
            | '\x7d' :: r3 => some (.cons ⟨k⟩ v .nil, r3)
            | _ => none
        | _ => none
    | _ => none
end

/-- `json.loads(message)` — parse a complete JSON document, tolerating
surrounding whitespace and rejecting trailing garbage; `none` models a
raised `json.JSONDecodeError`. -/
def json_loads (s : String) : Option Json :=
  let cs := skipWs s.toList
  match parseValue (cs.length + 1) cs with
  | some (j, r) => if skipWs r = [] then some j else none
  | none => none

example : json_loads "\x7b\"author\":\"Eve\"\x7d" =
    some (.obj (.cons "author" (.str "Eve") .nil)) := by decide

example : json_loads "not valid json" = none := by decide

example : json_loads "[1,2,3]" =
    some (.arr (.cons (.num 1) (.cons (.num 2) (.cons (.num 3) .nil)))) := by decide

example : json_loads "\x7b\"text\":\"hi\"\x7d\n" =
    some (.obj (.cons "text" (.str "hi") .nil)) := by decide

/-! ### Aggregate state (module-level globals, lines 46-49) -/

/-- One emitted log record's level (the `logger` collaborator). -/
inductive LogLevel where
  | debug
  | info
  | error
  deriving Repr, DecidableEq

/-- The consumer's mutable module-level state:
`author_counts = defaultdict(int)` (line 46), `total_messages = 0` (line 47),
`percentage_history = defaultdict(list)` (line 48) and
`message_indices = []` (line 49).  The two defaultdicts are association
lists in insertion order; Python float percentages are modelled by `Rat`. -/
structure AggState where
  author_counts : List (Json × Nat)
  total_messages : Nat
  percentage_history : List (Json × List Rat)
  message_indices : List Nat
  deriving Repr, DecidableEq

/-- The state at process start: everything empty. -/
def initState : AggState := ⟨[], 0, [], []⟩

/-- Python dict key identity for JSON-derived values.  Python dicts identify
keys that compare equal under `==` (and `hash(True) == hash(1)`), so `True`
shares a slot with `1` and `False` with `0`; every other JSON value equals
only itself.  (The modelled fragment has no floats, Python's other source of
cross-type `==` among JSON values.)  Two values denote the same dict slot
exactly when their `pyKey` images coincide. -/
def pyKey : Json → Json
  | .bool b => .num (if b then 1 else 0)
  | j => j

/-- Python hashability of a JSON-derived value: lists and dicts are
unhashable, so using one as a dict key raises `TypeError`; `None`, booleans,
numbers and strings are hashable. -/
def Json.hashable : Json → Bool
  | .arr _ => false
  | .obj _ => false
  | _ => true

/-- Reading `author_counts[k]` (a `defaultdict(int)`, default `0`); the
slot is found up to Python `==` key identity. -/
def lookupCount : List (Json × Nat) → Json → Nat
  | [], _ => 0
  | (k', v) :: t, k => if pyKey k' = pyKey k then v else lookupCount t k

/-- `author_counts[author] += 1` (line 130): bump the existing slot whose
key compares `==`-equal (the dict keeps its first-inserted key object), or
append the key with count 1. -/
def bump : List (Json × Nat) → Json → List (Json × Nat)
  | [], k => [(k, 1)]
  | (k', v) :: t, k =>
      if pyKey k' = pyKey k then (k', v + 1) :: t else (k', v) :: bump t k

/-- Sum of all counts, `sum(author_counts.values())`. -/
def sumCounts (l : List (Json × Nat)) : Nat := (l.map Prod.snd).sum

/-- Reading `percentage_history[k]` (a `defaultdict(list)`, default `[]`). -/
def lookupHist : List (Json × List Rat) → Json → List Rat
  | [], _ => []
  | (k', v) :: t, k => if pyKey k' = pyKey k then v else lookupHist t k

/-- `percentage_history[author].append(p)` (line 76): append to an existing
key's series in place, or create the key with a one-element series. -/
def appendHist : List (Json × List Rat) → Json → Rat → List (Json × List Rat)
  | [], k, p => [(k, [p])]
  | (k', ps) :: t, k, p =>
      if pyKey k' = pyKey k then (k', ps ++ [p]) :: t
      else (k', ps) :: appendHist t k p

/-! ### `update_chart` (lines 65-96) -/

/-- The state mutations of `update_chart()` (lines 65-96): append the current
`total_messages` to `message_indices` (line 71), then for every author in
`author_counts` (in insertion order) append
`(count / total_messages) * 100 if total_messages > 0 else 0` to that
author's `percentage_history` series (lines 74-76).  The plotting calls
(lines 68, 80-96) touch no aggregate state and are not modelled. -/
def update_chart (s : AggState) : AggState :=
  let s1 := { s with message_indices := s.message_indices ++ [s.total_messages] }
  { s1 with
    percentage_history :=
      s1.author_counts.foldl
        (fun h kc =>
          appendHist h kc.1
            (if 0 < s1.total_messages then
              ((kc.2 : Rat) / (s1.total_messages : Rat)) * 100
            else 0))
        s1.percentage_history }

/-! ### `process_message` (lines 104-148) -/

/-- `author = message_dict.get("author", "unknown")` (line 126). -/
def get_author (fields : JObj) : Json :=
  (fields.get "author").getD (.str "unknown")

/-- The dictionary branch of `process_message` (lines 124-140).  After the
info log of line 127, line 130 `author_counts[author] += 1` first hashes the
author: if the author value is unhashable (a JSON array or object, e.g.
`{"author":[1,2]}`), it raises `TypeError` before either increment, caught
by the `except Exception` handler at lines 147-148 (one error log, no state
change).  For a hashable author, lines 130-131 bump the author's slot and
the total; line 134 then evaluates the f-string
`f"... {tracked_author} count: {author_counts[tracked_author]}"`, and the
name `tracked_author` is defined nowhere in the module, so a `NameError` is
raised before anything further runs; it is caught by the same handler,
which logs one error.  Either way the `update_chart()` call on line 137 is
never reached, and the emitted log levels coincide. -/
def handle_dict (s : AggState) (fields : JObj) : AggState × List LogLevel :=
  let author := get_author fields
  let s' :=
    if author.hashable then
      { s with
        author_counts := bump s.author_counts author,
        total_messages := s.total_messages + 1 }
    else s
  (s', [.info, .error])

/-- `process_message(message)` (lines 104-148): log the raw message
(line 115, debug), parse it (line 118); on a parse failure log one error
(lines 145-146); on a non-dict document log the processed message (line 121,
info) and one error (lines 142-143); on a dict document log info (121) and
run the dictionary branch.  Returns the new state and the emitted log
levels in order. -/
def process_message (s : AggState) (message : String) : AggState × List LogLevel :=
  match json_loads message with
  | none => (s, [.debug, .error])
  | some (.obj fields) =>
      let r := handle_dict s fields
      (r.1, .debug :: .info :: r.2)
  | some _ => (s, [.debug, .info, .error])

/-! ### The main polling loop (lines 156-199) -/

/-- Python whitespace as stripped by `str.strip()`. -/
def isPySpace (c : Char) : Bool :=
  c = ' ' || c = '\t' || c = '\n' || c = '\r' || c = '\x0b' || c = '\x0c'

/-- `line.strip()` (line 182). -/
def strip (s : String) : String :=
  ⟨((s.toList.dropWhile isPySpace).reverse.dropWhile isPySpace).reverse⟩

/-- `file.readline()` (line 179) on the not-yet-consumed suffix of the file:
returns the consumed chunk and the remaining suffix.  It consumes up to and
including the first newline; if the suffix has no newline it returns the
whole (partial) suffix, and it returns the empty chunk only at end of
file. -/
def readline : List Char → List Char × List Char
  | [] => ([], [])
  | c :: t =>
      if c = '\n' then ([c], t)
      else (c :: (readline t).1, (readline t).2)

/-- What one iteration of the `while True` loop did with the line it read. -/
inductive LoopAction where
  | processed (logs : List LogLevel)
  | idled
  deriving Repr, DecidableEq

/-- One iteration of the polling loop (lines 177-190): if the stripped line
is non-empty, `process_message(line)` runs; otherwise the loop logs a debug
message, sleeps half a second and re-polls (state untouched). -/
def loop_step (s : AggState) (line : String) : AggState × LoopAction :=
  if strip line ≠ "" then
    let r := process_message s line
    (r.1, .processed r.2)
  else (s, .idled)

/-- Folding the polling loop over a list of `readline` results. -/
def run_loop (s : AggState) : List String → AggState
  | [] => s
  | l :: ls => run_loop (loop_step s l).1 ls

/-- `main()` (lines 156-199) up to its I/O effects: if the data file does
not exist, `sys.exit(1)` fires (lines 165-167) before the file is opened —
modelled as `Sum.inl 1`, the non-zero exit status; otherwise the polling
loop consumes the lines that appear and the final aggregate state is
`Sum.inr` of the loop's result. -/
def main_run (dataFileExists : Bool) (lines : List String) : Sum Nat AggState :=
  if !dataFileExists then Sum.inl 1
  else Sum.inr (run_loop initState lines)

/-- States reachable from the initial state by processing any sequence of
raw messages. -/
inductive Reachable : AggState → Prop
  | init : Reachable initState
  | step (s : AggState) (m : String) :
      Reachable s → Reachable (process_message s m).1

/-! ### Helper lemmas about one processing step -/

theorem process_message_obj (s : AggState) (m : String) (fields : JObj)
    (h : json_loads m = some (.obj fields)) :
    (process_message s m).1 =
      if (get_author fields).hashable then
        { s with
          author_counts := bump s.author_counts (get_author fields),
          total_messages := s.total_messages + 1 }
      else s := by
  simp [process_message, h, handle_dict]

theorem process_message_not_obj (s : AggState) (m : String)
    (h : ∀ fields, json_loads m ≠ some (.obj fields)) :
    (process_message s m).1 = s := by
  unfold process_message
  cases hj : json_loads m with
  | none => rfl
  | some j => cases j <;> first | rfl | exact absurd hj (h _)

/-- No branch of `process_message` ever touches `percentage_history` or
`message_indices`: the only writer, `update_chart` (lines 70-76), sits after
the `NameError` raised on line 134. -/
theorem process_message_hist_idx (s : AggState) (m : String) :
    (process_message s m).1.percentage_history = s.percentage_history ∧
    (process_message s m).1.message_indices = s.message_indices := by
  unfold process_message handle_dict
  cases hj : json_loads m with
  | none => exact ⟨rfl, rfl⟩
  | some j =>
    cases j with
    | obj fields =>
        by_cases hh : (get_author fields).hashable = true <;> simp [hh]
    | null => exact ⟨rfl, rfl⟩
    | bool b => exact ⟨rfl, rfl⟩
    | num n => exact ⟨rfl, rfl⟩
    | str x => exact ⟨rfl, rfl⟩
    | arr xs => exact ⟨rfl, rfl⟩

theorem sumCounts_bump (l : List (Json × Nat)) (k : Json) :
    sumCounts (bump l k) = sumCounts l + 1 := by
  induction l with
  | nil => simp [bump, sumCounts]
  | cons p t ih =>
    obtain ⟨k', v⟩ := p
    by_cases h : pyKey k' = pyKey k <;>
      simp [bump, h, sumCounts] at ih ⊢ <;> omega

theorem lookupCount_bump_self (l : List (Json × Nat)) (k : Json) :
    lookupCount (bump l k) k = lookupCount l k + 1 := by
  induction l with
  | nil => simp [bump, lookupCount]
  | cons p t ih =>
    obtain ⟨k', v⟩ := p
    by_cases h : pyKey k' = pyKey k <;> simp [bump, h, lookupCount, ih]

theorem lookupCount_bump_ne (l : List (Json × Nat)) (a k : Json)
    (h : pyKey k ≠ pyKey a) :
    lookupCount (bump l a) k = lookupCount l k := by
  induction l with
  | nil => simp [bump, lookupCount, Ne.symm h]
  | cons p t ih =>
    obtain ⟨k', v⟩ := p
    by_cases h' : pyKey k' = pyKey a
    · have hk : ¬(pyKey k' = pyKey k) := fun he => h (he ▸ h')
      simp [bump, h', lookupCount, hk, Ne.symm h]
    · simp [bump, h', lookupCount, ih]

/-! ### Claims -/

/-- Claim C2 (corrected) — counterexample to the claim as stated.  The line
`{"author":[1,2]}` parses to a dictionary, so by the claim this process
step should increment some key's count and `total_messages` by 1 together;
but the author value is an unhashable list, so line 130 raises `TypeError`
before either increment (caught at lines 147-148) and the state is entirely
unchanged. -/
theorem C2_counterexample :
    json_loads "\x7b\"author\":[1,2]\x7d"
      = some (.obj (.cons "author"
          (.arr (.cons (.num 1) (.cons (.num 2) .nil))) .nil)) ∧
    (process_message initState "\x7b\"author\":[1,2]\x7d").1 = initState ∧
    ¬ ((process_message initState "\x7b\"author\":[1,2]\x7d").1.total_messages
        = initState.total_messages + 1) := by
  decide

/-- Claim C2 (corrected, amended).  For every reachable state,
`total_messages` equals the sum of all counts in `author_counts`.
Processing a message that parses to a dictionary whose resolved author is
hashable increments exactly that author's slot — dict slots identify keys
equal under Python `==`, i.e. up to `pyKey` — by 1 and `total_messages` by
1 together, leaving every `==`-distinct key's count unchanged; when the
resolved author is unhashable (a list or dict), line 130's `TypeError`
(caught at lines 147-148) leaves the state entirely unchanged. -/
theorem C2_total_is_sum_of_counts :
    ∀ (s : AggState), Reachable s →
      (s.total_messages = sumCounts s.author_counts) ∧
      (∀ (m : String) (fields : JObj), json_loads m = some (.obj fields) →
        ((get_author fields).hashable = true →
          (process_message s m).1.total_messages = s.total_messages + 1 ∧
          lookupCount (process_message s m).1.author_counts (get_author fields)
              = lookupCount s.author_counts (get_author fields) + 1 ∧
          ∀ k, pyKey k ≠ pyKey (get_author fields) →
            lookupCount (process_message s m).1.author_counts k
                = lookupCount s.author_counts k) ∧
        ((get_author fields).hashable = false →
          (process_message s m).1 = s)) := by
  have step : ∀ (s : AggState) (m : String) (fields : JObj),
      json_loads m = some (.obj fields) →
      ((get_author fields).hashable = true →
        (process_message s m).1.total_messages = s.total_messages + 1 ∧
        lookupCount (process_message s m).1.author_counts (get_author fields)
            = lookupCount s.author_counts (get_author fields) + 1 ∧
        ∀ k, pyKey k ≠ pyKey (get_author fields) →
          lookupCount (process_message s m).1.author_counts k
              = lookupCount s.author_counts k) ∧
      ((get_author fields).hashable = false →
        (process_message s m).1 = s) := by
    intro s m fields h
    rw [process_message_obj s m fields h]
    constructor
    · intro hh
      rw [if_pos hh]
      exact ⟨rfl, lookupCount_bump_self _ _,
        fun k hk => lookupCount_bump_ne _ _ _ hk⟩
    · intro hh
      rw [if_neg (by simp [hh])]
  intro s hs
  refine ⟨?_, step s⟩
  induction hs with
  | init => rfl
  | step s' m hs' ih =>
    cases hobj : json_loads m with
    | none =>
      rw [process_message_not_obj s' m (by simp [hobj])]
      exact ih
    | some j =>
      cases j with
      | obj fields =>
        rw [process_message_obj s' m fields hobj]
        by_cases hh : (get_author fields).hashable = true
        · rw [if_pos hh]
          simp [sumCounts_bump, ih]
        · rw [if_neg hh]
          exact ih
      | _ =>
        rw [process_message_not_obj s' m (by simp [hobj])]
        exact ih

/-- Witness for the amended C2 at concrete inputs: the state reached by
processing `{"author":"Eve"}` satisfies the sum invariant; processing
`{"author":"Bob"}` from there increments Bob's count and the total;
processing `{"author":[1,2]}` from there leaves the state unchanged; and
after `{"author":true}`, processing `{"author":1}` increments the slot of
the `==`-shared key `1`/`True` to 2. -/
theorem C2_witness :
    ((process_message initState "\x7b\"author\":\"Eve\"\x7d").1.total_messages
        = sumCounts (process_message initState "\x7b\"author\":\"Eve\"\x7d").1.author_counts) ∧
    ((process_message (process_message initState "\x7b\"author\":\"Eve\"\x7d").1
        "\x7b\"author\":\"Bob\"\x7d").1.total_messages
      = (process_message initState "\x7b\"author\":\"Eve\"\x7d").1.total_messages + 1) ∧
    ((process_message (process_message initState "\x7b\"author\":\"Eve\"\x7d").1
        "\x7b\"author\":[1,2]\x7d").1
      = (process_message initState "\x7b\"author\":\"Eve\"\x7d").1) ∧
    (lookupCount (process_message (process_message initState "\x7b\"author\":true\x7d").1
          "\x7b\"author\":1\x7d").1.author_counts (.num 1)
      = lookupCount (process_message initState "\x7b\"author\":true\x7d").1.author_counts
          (.num 1) + 1) ∧
    (lookupCount (process_message (process_message initState "\x7b\"author\":true\x7d").1
          "\x7b\"author\":1\x7d").1.author_counts (.bool true) = 2) := by
  have h := C2_total_is_sum_of_counts
    (process_message initState "\x7b\"author\":\"Eve\"\x7d").1
    (Reachable.step initState _ Reachable.init)
  have ht := C2_total_is_sum_of_counts
    (process_message initState "\x7b\"author\":true\x7d").1
    (Reachable.step initState _ Reachable.init)
  refine ⟨h.1, ?_, ?_, ?_, by decide⟩
  · exact ((h.2 "\x7b\"author\":\"Bob\"\x7d" (.cons "author" (.str "Bob") .nil)
      (by decide)).1 (by decide)).1
  · exact (h.2 "\x7b\"author\":[1,2]\x7d"
      (.cons "author" (.arr (.cons (.num 1) (.cons (.num 2) .nil))) .nil)
      (by decide)).2 (by decide)
  · exact ((ht.2 "\x7b\"author\":1\x7d" (.cons "author" (.num 1) .nil)
      (by decide)).1 (by decide)).2.1

/-- Claim C1 (corrected) — counterexample to the claim as stated.  After the
single accepted record `{"author":"Eve"}`, Eve is a tracked key
(`author_counts` holds her with count 1), yet her history did not grow by
one element: it is still empty, because the `NameError` raised on line 134
aborts `process_message` before `update_chart()` can run. -/
theorem C1_counterexample :
    lookupCount (process_message initState "\x7b\"author\":\"Eve\"\x7d").1.author_counts
        (.str "Eve") = 1 ∧
    ¬ ((lookupHist
          (process_message initState "\x7b\"author\":\"Eve\"\x7d").1.percentage_history
          (.str "Eve")).length
        = (lookupHist initState.percentage_history (.str "Eve")).length + 1) := by
  decide

/-- Claim C1 (corrected, amended).  For every reachable state,
`percentage_history` and `message_indices` are still empty — no accepted
record ever grows any key's history, because the chart-update step is
unreachable — and hence (degenerately) every key's history length equals
the length of `message_indices`, both being zero. -/
theorem C1_history_and_indices_stay_empty :
    ∀ (s : AggState), Reachable s →
      s.message_indices = [] ∧ s.percentage_history = [] ∧
      ∀ (k : Json), (lookupHist s.percentage_history k).length
          = s.message_indices.length := by
  intro s hs
  have main : s.message_indices = [] ∧ s.percentage_history = [] := by
    induction hs with
    | init => exact ⟨rfl, rfl⟩
    | step s' m hs' ih =>
      have h := process_message_hist_idx s' m
      exact ⟨h.2.trans ih.1, h.1.trans ih.2⟩
  refine ⟨main.1, main.2, ?_⟩
  intro k
  rw [main.1, main.2]
  simp [lookupHist]

/-- Witness for the amended C1 at a concrete reachable state. -/
theorem C1_witness :
    (process_message initState "\x7b\"author\":\"Eve\"\x7d").1.message_indices = [] ∧
    (process_message initState "\x7b\"author\":\"Eve\"\x7d").1.percentage_history = [] ∧
    (lookupHist (process_message initState "\x7b\"author\":\"Eve\"\x7d").1.percentage_history
        (.str "Eve")).length
      = (process_message initState "\x7b\"author\":\"Eve\"\x7d").1.message_indices.length := by
  have h := C1_history_and_indices_stay_empty
    (process_message initState "\x7b\"author\":\"Eve\"\x7d").1
    (Reachable.step initState _ Reachable.init)
  exact ⟨h.1, h.2.1, h.2.2 (.str "Eve")⟩

/-- Claim C3 (code bug).  The claim describes the intended update cycle
(line 71 appends `total_messages` to `message_indices`), but at the failing
input `{"author":"Eve"}` the code accepts the record (`total_messages`
becomes 1) and then raises `NameError` at line 134 before `update_chart()`,
so nothing is ever appended to `message_indices`. -/
theorem C3_no_sample_index_is_appended :
    (process_message initState "\x7b\"author\":\"Eve\"\x7d").1.total_messages = 1 ∧
    (process_message initState "\x7b\"author\":\"Eve\"\x7d").1.message_indices
      = ([] : List Nat) := by
  decide

/-- Claim C4 (code bug).  After the first accepted record the claim expects
the sole key's last recorded percentage to be exactly 100, but the code
records no percentage at all: Eve's count is 1 and `total_messages` is 1,
yet her `percentage_history` series is empty, because the line-134
`NameError` aborts processing before `update_chart()`. -/
theorem C4_no_percentage_is_recorded :
    lookupCount (process_message initState "\x7b\"author\":\"Eve\"\x7d").1.author_counts
        (.str "Eve") = 1 ∧
    (process_message initState "\x7b\"author\":\"Eve\"\x7d").1.total_messages = 1 ∧
    lookupHist (process_message initState "\x7b\"author\":\"Eve\"\x7d").1.percentage_history
        (.str "Eve") = ([] : List Rat) := by
  decide

/-- The final state of Scenario A: the three lines
`{"author":"Eve"}`, `{"author":"Bob"}`, `{"author":"Eve"}` fed through the
polling loop from the initial state. -/
def scenarioA : AggState :=
  run_loop initState
    ["\x7b\"author\":\"Eve\"\x7d\n", "\x7b\"author\":\"Bob\"\x7d\n",
     "\x7b\"author\":\"Eve\"\x7d\n"]

/-- Claim C5 (code bug).  The counting half of Scenario A holds
(`countsByKey = Eve:2, Bob:1`, `totalCount = 3`), but the history half
fails: both percentage series are empty rather than ending near 66.67 and
33.33, because no update cycle ever completes (line-134 `NameError`). -/
theorem C5_scenarioA_counts_right_histories_empty :
    lookupCount scenarioA.author_counts (.str "Eve") = 2 ∧
    lookupCount scenarioA.author_counts (.str "Bob") = 1 ∧
    scenarioA.total_messages = 3 ∧
    lookupHist scenarioA.percentage_history (.str "Eve") = ([] : List Rat) ∧
    lookupHist scenarioA.percentage_history (.str "Bob") = ([] : List Rat) := by
  decide

/-- Claim C6 (confirmed).  Processing a line that fails to parse, or parses
to a non-dictionary document, leaves the whole state unchanged, emits
exactly one error-level log record, and does not stop the stream: running
the loop on the bad line followed by any remaining lines reaches the same
state as running it on the remaining lines alone. -/
theorem C6_bad_line_is_harmless :
    ∀ (s : AggState) (line : String),
      (json_loads line = none ∨
        ∃ j, json_loads line = some j ∧ j.isObj = false) →
      (process_message s line).1 = s ∧
      (process_message s line).2.count LogLevel.error = 1 ∧
      ∀ (rest : List String), run_loop s (line :: rest) = run_loop s rest := by
  intro s line h
  have hmain : (process_message s line).1 = s ∧
      (process_message s line).2.count LogLevel.error = 1 := by
    rcases h with h | ⟨j, hj, hobj⟩
    · rw [show process_message s line = (s, [.debug, .error]) from by
        simp [process_message, h]]
      exact ⟨rfl, rfl⟩
    · cases j with
      | obj fields => simp [Json.isObj] at hobj
      | null =>
          rw [show process_message s line = (s, [.debug, .info, .error]) from by
            simp [process_message, hj]]
          exact ⟨rfl, rfl⟩
      | bool b =>
          rw [show process_message s line = (s, [.debug, .info, .error]) from by
            simp [process_message, hj]]
          exact ⟨rfl, rfl⟩
      | num n =>
          rw [show process_message s line = (s, [.debug, .info, .error]) from by
            simp [process_message, hj]]
          exact ⟨rfl, rfl⟩
      | str x =>
          rw [show process_message s line = (s, [.debug, .info, .error]) from by
            simp [process_message, hj]]
          exact ⟨rfl, rfl⟩
      | arr xs =>
          rw [show process_message s line = (s, [.debug, .info, .error]) from by
            simp [process_message, hj]]
          exact ⟨rfl, rfl⟩
  refine ⟨hmain.1, hmain.2, ?_⟩
  intro rest
  have hstep : (loop_step s line).1 = s := by
    unfold loop_step
    by_cases hc : strip line ≠ "" <;> simp [hc, hmain.1]
  show run_loop (loop_step s line).1 rest = run_loop s rest
  rw [hstep]

/-- Witness for C6: the malformed line `not valid json` (Scenario B) and the
well-formed non-dictionary line `[1,2,3]` (Scenario C) both leave the state
unchanged, log one error, and let a following good line aggregate as if the
bad line had never arrived. -/
theorem C6_witness :
    (process_message initState "not valid json").1 = initState ∧
    (process_message initState "not valid json").2.count LogLevel.error = 1 ∧
    run_loop initState ["not valid json", "\x7b\"author\":\"Eve\"\x7d\n"]
      = run_loop initState ["\x7b\"author\":\"Eve\"\x7d\n"] ∧
    (process_message initState "[1,2,3]").1 = initState ∧
    (process_message initState "[1,2,3]").2.count LogLevel.error = 1 := by
  have h1 := C6_bad_line_is_harmless initState "not valid json" (Or.inl (by decide))
  have h2 := C6_bad_line_is_harmless initState "[1,2,3]"
    (Or.inr ⟨.arr (.cons (.num 1) (.cons (.num 2) (.cons (.num 3) .nil))),
      by decide, by decide⟩)
  exact ⟨h1.1, h1.2.1, h1.2.2 _, h2.1, h2.2.1⟩

/-- Claim C7 (confirmed).  For a dictionary payload with no `author` field,
`message_dict.get("author", "unknown")` (line 126) resolves the key to the
string `"unknown"`, and the dictionary branch mutates the state exactly as
it would for the same payload with `author` explicitly set to
`"unknown"`. -/
theorem C7_missing_author_defaults_to_unknown :
    ∀ (s : AggState) (fields : JObj), fields.get "author" = none →
      get_author fields = .str "unknown" ∧
      handle_dict s fields
        = handle_dict s (.cons "author" (.str "unknown") fields) ∧
      ∀ (line : String), json_loads line = some (.obj fields) →
        (process_message s line).1
          = (handle_dict s (.cons "author" (.str "unknown") fields)).1 := by
  intro s fields h
  have hget : get_author fields = .str "unknown" := by
    simp [get_author, h]
  have hget2 : get_author (.cons "author" (.str "unknown") fields)
      = .str "unknown" := by
    simp [get_author, JObj.get, h]
  have hdict : handle_dict s fields
      = handle_dict s (.cons "author" (.str "unknown") fields) := by
    simp [handle_dict, hget, hget2]
  refine ⟨hget, hdict, ?_⟩
  intro line hline
  rw [process_message_obj s line fields hline]
  simp [handle_dict, hget, hget2]

/-- Witness for C7 at Scenario D's payload `{"text":"hi"}`. -/
theorem C7_witness :
    get_author (.cons "text" (.str "hi") .nil) = .str "unknown" ∧
    handle_dict initState (.cons "text" (.str "hi") .nil)
      = handle_dict initState
          (.cons "author" (.str "unknown") (.cons "text" (.str "hi") .nil)) ∧
    (process_message initState "\x7b\"text\":\"hi\"\x7d").1
      = (handle_dict initState
          (.cons "author" (.str "unknown") (.cons "text" (.str "hi") .nil))).1 := by
  have h := C7_missing_author_defaults_to_unknown initState
    (.cons "text" (.str "hi") .nil) (by decide)
  exact ⟨h.1, h.2.1, h.2.2 "\x7b\"text\":\"hi\"\x7d" (by decide)⟩

/-- Claim C8 (corrected) — counterexample to the claim as stated.  With the
un-consumed file suffix `abc`, which contains no newline terminator,
`readline` returns the partial data `abc` rather than nothing, and the loop
treats it as a record (the stripped line is non-empty, so the iteration
processes it instead of idling). -/
theorem C8_counterexample :
    '\n' ∉ ['a', 'b', 'c'] ∧
    (readline ['a', 'b', 'c']).1 = ['a', 'b', 'c'] ∧
    (loop_step initState ⟨(readline ['a', 'b', 'c']).1⟩).2 ≠ LoopAction.idled := by
  decide

/-- Splitting `readline`'s result reassembles the input. -/
theorem readline_append (t : List Char) :
    (readline t).1 ++ (readline t).2 = t := by
  induction t with
  | nil => rfl
  | cons c t ih => by_cases h : c = '\n' <;> simp [readline, h, ih]

/-- `readline` returns the empty chunk only at end of file. -/
theorem readline_empty_iff (t : List Char) :
    (readline t).1 = [] ↔ t = [] := by
  cases t with
  | nil => simp [readline]
  | cons c t => by_cases h : c = '\n' <;> simp [readline, h]

/-- On a suffix with no newline, `readline` returns the whole partial
suffix, not nothing. -/
theorem readline_no_newline (t : List Char) (h : '\n' ∉ t) :
    readline t = (t, []) := by
  induction t with
  | nil => rfl
  | cons c t ih =>
    simp only [List.mem_cons, not_or] at h
    simp [readline, Ne.symm h.1, ih h.2]

/-- On a suffix starting with a complete line, `readline` consumes exactly
through the terminator. -/
theorem readline_complete_line (pre post : List Char) (h : '\n' ∉ pre) :
    readline (pre ++ '\n' :: post) = (pre ++ ['\n'], post) := by
  induction pre with
  | nil => simp [readline]
  | cons c p ih =>
    simp only [List.mem_cons, not_or] at h
    simp [readline, Ne.symm h.1, ih h.2]

/-- Claim C8 (corrected, amended).  The poll step returns the next chunk up
to and including the first newline when one is available; when the suffix
holds only partial trailing data without a terminator it returns that
partial data whole (it does not wait for the terminator); and it returns
nothing exactly when no appended data remains.  Consumed and remaining data
always reassemble the suffix. -/
theorem C8_readline_behaviour :
    ∀ (t : List Char),
      ((readline t).1 ++ (readline t).2 = t) ∧
      ((readline t).1 = [] ↔ t = []) ∧
      ('\n' ∉ t → readline t = (t, [])) ∧
      (∀ (pre post : List Char), '\n' ∉ pre →
        readline (pre ++ '\n' :: post) = (pre ++ ['\n'], post)) := by
  intro t
  exact ⟨readline_append t, readline_empty_iff t,
    readline_no_newline t, fun pre post h => readline_complete_line pre post h⟩

/-- Witness for C8 at concrete inputs: the partial suffix `abc` is returned
whole, and the complete line `hi\n` followed by `x` is consumed exactly
through its terminator. -/
theorem C8_witness :
    readline ['a', 'b', 'c'] = (['a', 'b', 'c'], []) ∧
    readline (['h', 'i'] ++ '\n' :: ['x']) = (['h', 'i'] ++ ['\n'], ['x']) := by
  exact ⟨((C8_readline_behaviour ['a', 'b', 'c']).2.2.1 (by decide)),
    ((C8_readline_behaviour ['x']).2.2.2 ['h', 'i'] ['x'] (by decide))⟩

/-- Claim C9 (confirmed).  When the data file does not exist at startup,
`main` exits with status 1 (lines 165-167) before the polling loop is
entered: whatever lines would later have been readable, the run produces
exit code 1 and never an aggregate state, so no record is read or
aggregated. -/
theorem C9_missing_file_exits_nonzero :
    ∀ (lines : List String),
      main_run false lines = Sum.inl 1 ∧
      ∀ (s : AggState), main_run false lines ≠ Sum.inr s := by
  intro lines
  refine ⟨rfl, ?_⟩
  intro s
  simp [main_run]

/-- Witness for C9 at a concrete line list. -/
theorem C9_witness :
    main_run false ["\x7b\"author\":\"Eve\"\x7d\n"] = Sum.inl 1 ∧
    main_run false ["\x7b\"author\":\"Eve\"\x7d\n"] ≠ Sum.inr initState := by
  have h := C9_missing_file_exits_nonzero ["\x7b\"author\":\"Eve\"\x7d\n"]
  exact ⟨h.1, h.2 initState⟩

/-- Claim C10 (confirmed).  A line that is empty or all whitespace makes
the loop iteration idle: the state is untouched, nothing is processed (so
the line never reaches `json.loads` and no parse error is logged), and the
iteration is exactly the no-new-data iteration (which sees the empty
string from `readline` at end of file). -/
theorem C10_blank_line_idles :
    ∀ (s : AggState) (line : String), strip line = "" →
      loop_step s line = (s, .idled) ∧
      loop_step s line = loop_step s "" := by
  intro s line h
  have h0 : strip "" = "" := rfl
  constructor <;> simp [loop_step, h, h0]

/-- Witness for C10 at a whitespace-only line. -/
theorem C10_witness :
    loop_step initState " \t\r\n" = (initState, .idled) ∧
    loop_step initState " \t\r\n" = loop_step initState "" := by
  exact C10_blank_line_idles initState " \t\r\n" (by decide)

end Buzzline
